import Mathlib

set_option maxRecDepth 10000

/-!
Verification of the shelfmark request-lifecycle engine.

This file gives a shallow embedding of the core of the repository:
the SQLite-backed request store (`shelfmark/core/request_db.py`), the
request routes and the background download orchestrator
(`shelfmark/core/request_routes.py`), and the Audiobookshelf
duplicate-detection cache (`shelfmark/core/audiobookshelf.py`).

Modelling conventions:
 - SQL rows become a `Request` structure, the database becomes a list of
   rows plus the set of existing user ids (the `users` table is only
   consulted through the `JOIN users` in `_get_request`).
 - `CURRENT_TIMESTAMP` becomes an explicit `now : Nat` argument.
 - Python exceptions of external collaborators become `Except String`
   values supplied by an environment structure; a raised `ValueError`
   becomes an `Except.error` component of the result.
 - Python `None`/`""` falsiness on optional strings is `truthy`.
 - String handling (`.strip()`, `.lower()`, the `\w`/`\s` classes of
   `re`) is modelled over the ASCII range, which covers every literal
   appearing in the verified properties.
-/

/-- Python truthiness of an optional string: `None` and `""` are falsy. -/
def truthy : Option String → Bool
  | none => false
  | some s => !(s == "")

/-- ASCII whitespace: the characters of Python's `\s` class / `str.strip`. -/
def isSpaceCh (c : Char) : Bool :=
  c == ' ' || c == '\t' || c == '\n' || c == '\r' || c == '\x0b' || c == '\x0c'

/-- Drop leading and trailing whitespace from a character list. -/
def stripChars (l : List Char) : List Char :=
  ((l.dropWhile isSpaceCh).reverse.dropWhile isSpaceCh).reverse

/-- Model of Python `str.strip` (ASCII whitespace). -/
def stripS (s : String) : String := String.mk (stripChars s.data)

/-- Model of Python `str.lower` (ASCII case mapping). -/
def lowerS (s : String) : String := String.mk (s.data.map Char.toLower)

/-- Whether character list `l` has `p` as a leading segment (Python `startswith`). -/
def startsWithL : List Char → List Char → Bool
  | _, [] => true
  | [], _ :: _ => false
  | x :: xs, y :: ys => x == y && startsWithL xs ys

/-- `request_db._sanitize_url`: keep the url only when its scheme is http/https. -/
def sanitizeUrl : Option String → Option String
  | none => none
  | some s =>
    if startsWithL s.data "http://".data || startsWithL s.data "https://".data then some s
    else none

/-- One row of the `requests` table of `request_db.py`. -/
structure Request where
  id : Nat
  user_id : Nat
  status : String := "pending"
  content_type : String := "ebook"
  title : String
  author : Option String := none
  year : Option String := none
  cover_url : Option String := none
  description : Option String := none
  isbn_10 : Option String := none
  isbn_13 : Option String := none
  provider : Option String := none
  provider_id : Option String := none
  series_name : Option String := none
  series_position : Option Int := none
  admin_note : Option String := none
  approved_by : Option Nat := none
  download_task_id : Option String := none
  created_at : Nat := 0
  updated_at : Nat := 0
  hidden_from_admin : Bool := false
  deriving DecidableEq

/-- The request store: the `requests` table plus the ids of the `users` table
(the latter is consulted only through the `JOIN users` of `_get_request`). -/
structure RequestStore where
  requests : List Request
  users : List Nat
  deriving DecidableEq

def VALID_STATUSES : List String :=
  ["pending", "approved", "denied", "downloading", "fulfilled", "failed", "cancelled"]

def VALID_CONTENT_TYPES : List String := ["ebook", "audiobook"]

/-- `RequestDB._get_request`: SELECT ... JOIN users — the row is returned only
when its user still exists. -/
def RequestStore.getRequest (db : RequestStore) (rid : Nat) : Option Request :=
  match db.requests.find? (fun r => r.id == rid) with
  | none => none
  | some r => if db.users.contains r.user_id then some r else none

/-- AUTOINCREMENT id for a fresh row: one more than the largest id in the table. -/
def RequestStore.nextId (db : RequestStore) : Nat :=
  (db.requests.foldl (fun m r => max m r.id) 0) + 1

/-- `RequestDB.create_request`: validates `content_type` before any write and
inserts exactly one `pending` row. -/
def RequestStore.createRequest (db : RequestStore) (now : Nat) (user_id : Nat) (title : String)
    (content_type : String) (author year cover_url description isbn_10 isbn_13 provider
    provider_id series_name : Option String) (series_position : Option Int) :
    RequestStore × Except String (Option Request) :=
  if VALID_CONTENT_TYPES.contains content_type then
    let rid := db.nextId
    let row : Request :=
      { id := rid, user_id := user_id, status := "pending", content_type := content_type,
        title := title, author := author, year := year, cover_url := sanitizeUrl cover_url,
        description := description, isbn_10 := isbn_10, isbn_13 := isbn_13,
        provider := provider, provider_id := provider_id, series_name := series_name,
        series_position := series_position, created_at := now, updated_at := now }
    let db' : RequestStore := { db with requests := db.requests ++ [row] }
    (db', Except.ok (db'.getRequest rid))
  else
    (db, Except.error ("Invalid content_type: " ++ content_type))

/-- The partial field update of `RequestDB.update_request_status`: only the
supplied (non-`None`) optional fields change; `updated_at` is always bumped. -/
def applyStatusUpdate (now : Nat) (status : String) (admin_note : Option String)
    (approved_by : Option Nat) (download_task_id : Option String) (r : Request) : Request :=
  { r with
    status := status
    updated_at := now
    admin_note := match admin_note with | some v => some v | none => r.admin_note
    approved_by := match approved_by with | some v => some v | none => r.approved_by
    download_task_id :=
      match download_task_id with | some v => some v | none => r.download_task_id }

/-- `RequestDB.update_request_status`: rejects an invalid status before any
write; otherwise updates the row with the given id and returns the re-read row. -/
def RequestStore.updateRequestStatus (db : RequestStore) (now rid : Nat) (status : String)
    (admin_note : Option String) (approved_by : Option Nat) (download_task_id : Option String) :
    RequestStore × Except String (Option Request) :=
  if VALID_STATUSES.contains status then
    let db' : RequestStore :=
      { db with requests := db.requests.map (fun r =>
          if r.id == rid then applyStatusUpdate now status admin_note approved_by download_task_id r
          else r) }
    (db', Except.ok (db'.getRequest rid))
  else
    (db, Except.error ("Invalid status: " ++ status))

/-- The partial field update of `RequestDB.update_request_metadata`. -/
def applyMetadataUpdate (now : Nat) (provider provider_id : Option String) (r : Request) :
    Request :=
  { r with
    updated_at := now
    provider := match provider with | some v => some v | none => r.provider
    provider_id := match provider_id with | some v => some v | none => r.provider_id }

/-- `RequestDB.update_request_metadata`. -/
def RequestStore.updateRequestMetadata (db : RequestStore) (now rid : Nat)
    (provider provider_id : Option String) : RequestStore × Option Request :=
  let db' : RequestStore :=
    { db with requests := db.requests.map (fun r =>
        if r.id == rid then applyMetadataUpdate now provider provider_id r else r) }
  (db', db'.getRequest rid)

/-- Insert a row into a list kept in descending `created_at` order. -/
def insertByCreatedDesc (r : Request) : List Request → List Request
  | [] => [r]
  | x :: xs =>
    if r.created_at ≤ x.created_at then x :: insertByCreatedDesc r xs else r :: x :: xs

/-- `ORDER BY created_at DESC` of `list_requests`. -/
def sortByCreatedDesc : List Request → List Request
  | [] => []
  | x :: xs => insertByCreatedDesc x (sortByCreatedDesc xs)

/-- The WHERE clause of `RequestDB.list_requests` (including the implicit
`JOIN users` and the admin-view hidden-row exclusion). -/
def listPred (db : RequestStore) (user_id : Option Nat) (status : Option String)
    (include_hidden_from_admin : Bool) (r : Request) : Bool :=
  db.users.contains r.user_id &&
  (match user_id with
   | some u => r.user_id == u
   | none => include_hidden_from_admin || !r.hidden_from_admin) &&
  (match status with | some s => r.status == s | none => true)

/-- `RequestDB.list_requests`. `limit` lands in an SQL `LIMIT ? OFFSET ?`
clause; in SQLite a negative LIMIT means "no limit". -/
def RequestStore.listRequests (db : RequestStore) (user_id : Option Nat) (status : Option String)
    (limit : Int) (offset : Nat) (include_hidden_from_admin : Bool) : List Request :=
  let rows := db.requests.filter (listPred db user_id status include_hidden_from_admin)
  let page := (sortByCreatedDesc rows).drop offset
  if limit < 0 then page else page.take limit.toNat

/-- `RequestDB.count_requests` (no users join, no hidden-row exclusion). -/
def RequestStore.countRequests (db : RequestStore) (user_id : Option Nat)
    (status : Option String) : Nat :=
  (db.requests.filter (fun r =>
    (match user_id with | some u => r.user_id == u | none => true) &&
    (match status with | some s => r.status == s | none => true))).length

/-- `_acquire_download_slot`: insert the id into the in-flight set iff absent
and report whether admission succeeded. -/
def acquire_download_slot (flight : List Nat) (rid : Nat) : Bool × List Nat :=
  if flight.contains rid then (false, flight) else (true, rid :: flight)

/-- `_release_download_slot`: `set.discard` — remove the id unconditionally. -/
def release_download_slot (flight : List Nat) (rid : Nat) : List Nat :=
  flight.filter (fun x => !(x == rid))

/-- The JSON body of `POST /api/requests`; `none` stands for an absent key. -/
structure CreateBody where
  title : Option String := none
  content_type : Option String := none
  author : Option String := none
  year : Option String := none
  cover_url : Option String := none
  description : Option String := none
  isbn_10 : Option String := none
  isbn_13 : Option String := none
  provider : Option String := none
  provider_id : Option String := none
  series_name : Option String := none
  series_position : Option Int := none
  deriving DecidableEq

/-- `(data.get(k) or "").strip() or None` as applied to `author` and `year`. -/
def stripOpt (o : Option String) : Option String :=
  let s := stripS (o.getD "")
  if s == "" then none else some s

/-- The statuses counted as active by the duplicate-submission guard. -/
def isActiveStatus (s : String) : Bool :=
  s == "pending" || s == "approved" || s == "downloading"

/-- The per-row test of the duplicate loop of `create_request_route`:
active status, then either the provider/provider_id branch (when the NEW
request supplies both, truthily) or the case-insensitive title branch. -/
def dupHit (provider provider_id : Option String) (content_type : String) (title : String)
    (ex : Request) : Bool :=
  isActiveStatus ex.status &&
  (if truthy provider && truthy provider_id then
     ex.provider == provider && ex.provider_id == provider_id &&
       ex.content_type == content_type
   else lowerS ex.title == lowerS title && ex.content_type == content_type)

/-- `create_request_route` (`POST /api/requests`): returns the HTTP status code
and the resulting store. `uid` is the session's `db_user_id` (falsy → 401). -/
def create_request_route (db : RequestStore) (now : Nat) (uid : Option Nat)
    (body : CreateBody) : Nat × RequestStore :=
  match uid with
  | none => (401, db)
  | some u =>
    if u == 0 then (401, db)
    else
      let title := stripS (body.title.getD "")
      if title == "" then (400, db)
      else
        let content_type := body.content_type.getD "ebook"
        if !(VALID_CONTENT_TYPES.contains content_type) then (400, db)
        else
          let existing := db.listRequests (some u) none 200 0 false
          if existing.any (dupHit body.provider body.provider_id content_type title) then
            (409, db)
          else
            match db.createRequest now u title content_type (stripOpt body.author)
                (stripOpt body.year) body.cover_url body.description body.isbn_10 body.isbn_13
                body.provider body.provider_id body.series_name body.series_position with
            | (db2, Except.ok (some _)) => (201, db2)
            | (db2, Except.ok none) => (500, db2)
            | (db2, Except.error _) => (400, db2)

/-- The `{requests, total, limit, offset}` payload of `GET /api/requests`. -/
structure ListPage where
  requests : List Request
  total : Nat
  limit : Int
  offset : Nat
  deriving DecidableEq

/-- `list_requests_route` (`GET /api/requests`): the limit query parameter is
only capped from above by `min(limit, 1000)`; `offset` is clamped to `≥ 0`.
`none` parameters stand for an absent or unparsable query value. -/
def list_requests_route (db : RequestStore) (isAdmin : Bool) (sessionUid : Option Nat)
    (statusParam : Option String) (limitParam : Option Int) (offsetParam : Option Int) :
    ListPage :=
  let limit : Int := match limitParam with | some l => min l 1000 | none => 100
  let offset : Nat := match offsetParam with | some o => (max 0 o).toNat | none => 0
  let scope : Option Nat := if isAdmin then none else sessionUid
  { requests := db.listRequests scope statusParam limit offset false
    total := db.countRequests scope statusParam
    limit := limit
    offset := offset }

/-- The observable result of a state-changing route: HTTP code, store,
in-flight set, and whether a background download thread was spawned. -/
structure RouteResult where
  code : Nat
  db : RequestStore
  flight : List Nat
  spawned : Bool
  deriving DecidableEq

/-- `approve_request_route` (`POST /api/requests/{id}/approve`). -/
def approve_request_route (db : RequestStore) (flight : List Nat) (now : Nat)
    (adminId : Nat) (rid : Nat) : RouteResult :=
  match db.getRequest rid with
  | none => ⟨404, db, flight, false⟩
  | some req =>
    if !(req.status == "pending") then ⟨400, db, flight, false⟩
    else
      let db1 := (db.updateRequestStatus now rid "approved" none (some adminId) none).1
      if req.content_type == "audiobook" then ⟨200, db1, flight, false⟩
      else
        let slot := acquire_download_slot flight rid
        ⟨200, db1, slot.2, slot.1⟩

/-- One result of a metadata-provider search, as used by the retry backfill. -/
structure MetaResult where
  provider_id : String
  deriving DecidableEq

/-- Environment of the retry route's best-effort metadata search:
the configured provider name, whether `get_configured_provider` returned a
provider, and the outcome of `provider.search` (`Except.error` models a
raised exception, which the route catches and logs). -/
structure RetryEnv where
  providerName : String
  providerAvailable : Bool
  searchOutcome : Except String (List MetaResult)

/-- The statuses from which `retry_request_route` accepts a retry. -/
def retryAllowed (s : String) : Bool :=
  s == "failed" || s == "cancelled" || s == "denied" || s == "downloading" || s == "approved"

/-- The tail of the retry route shared by all metadata branches: audiobooks
stop at `approved`; ebooks try to admit a background download. -/
def retryFinish (db : RequestStore) (flight : List Nat) (updated : Request) (rid : Nat) :
    RouteResult :=
  if updated.content_type == "audiobook" then ⟨200, db, flight, false⟩
  else
    let slot := acquire_download_slot flight rid
    ⟨200, db, slot.2, slot.1⟩

/-- `retry_request_route` (`POST /api/requests/{id}/retry`). The 500 branches
model the `AttributeError` a vanished row would cause in the Python code;
they are unreachable in this sequential model. -/
def retry_request_route (env : RetryEnv) (db : RequestStore) (flight : List Nat) (now : Nat)
    (adminId : Nat) (rid : Nat) : RouteResult :=
  match db.getRequest rid with
  | none => ⟨404, db, flight, false⟩
  | some req =>
    if !(retryAllowed req.status) then ⟨400, db, flight, false⟩
    else
      let db1 := (db.updateRequestStatus now rid "approved" none (some adminId) none).1
      match db1.getRequest rid with
      | none => ⟨500, db1, flight, false⟩
      | some upd0 =>
        if !(truthy upd0.provider) || !(truthy upd0.provider_id) then
          if env.providerAvailable then
            match env.searchOutcome with
            | Except.ok (best :: _) =>
              let db2 := (db1.updateRequestMetadata now rid (some env.providerName)
                (some best.provider_id)).1
              match db2.getRequest rid with
              | none => ⟨500, db2, flight, false⟩
              | some u2 => retryFinish db2 flight u2 rid
            | Except.ok [] => retryFinish db1 flight upd0 rid
            | Except.error _ => retryFinish db1 flight upd0 rid
          else retryFinish db1 flight upd0 rid
        else retryFinish db1 flight upd0 rid

/-- The book record resolved from a metadata provider (`provider.get_book`). -/
structure Book where
  authors : List String := []
  publish_year : Option Nat := none
  cover_url : Option String := none
  series_name : Option String := none
  series_position : Option Int := none
  deriving DecidableEq

/-- A release returned by a release source; only `source_id` is consumed by
the orchestrator itself (as the external download task id). -/
structure Release where
  source_id : Option String := none
  deriving DecidableEq

/-- One entry of `list_available_sources()`. -/
structure SourceInfo where
  name : String
  enabled : Bool
  deriving DecidableEq

/-- Environment of one `_auto_download_request` run. Each external collaborator
call is an `Except String` value: `Except.error` models a raised exception
(`str(e)` being the carried string). `searchSource` is the per-source
`source.search` call, whose failure is caught and skipped inline. -/
structure OrchEnv where
  registered : String → Bool
  get_book : String → Except String (Option Book)
  sources : List SourceInfo
  searchSource : String → Except String (List Release)
  queue : Except String (Bool × Option String)

/-- `_safe_update_status`: mutate only if the request still exists
(checked through `get_request`); otherwise skip silently. -/
def safe_update_status (db : RequestStore) (now rid : Nat) (status : String)
    (admin_note : Option String) (download_task_id : Option String) : RequestStore :=
  if (db.getRequest rid).isSome then
    (db.updateRequestStatus now rid status admin_note none download_task_id).1
  else db

/-- `[src["name"] for src in list_available_sources() if src["enabled"]]`. -/
def enabledSources (env : OrchEnv) : List String :=
  (env.sources.filter (fun s => s.enabled)).map (fun s => s.name)

/-- The release-aggregation loop: a failing source is logged and skipped,
the others contribute their results in order. -/
def aggregatedReleases (env : OrchEnv) : List Release :=
  (enabledSources env).foldl (fun acc name =>
    match env.searchSource name with
    | Except.ok rs => acc ++ rs
    | Except.error _ => acc) []

/-- `error_msg or "Failed to queue download"` (Python falsiness of `None`/`""`). -/
def queueFailNote : Option String → String
  | none => "Failed to queue download"
  | some m => if m == "" then "Failed to queue download" else m

/-- The body of the `try:` block of `_auto_download_request`; an
`Except.error` escaping it models an exception reaching the outer handler. -/
def orchBody (env : OrchEnv) (db : RequestStore) (now rid : Nat) (req : Request) :
    Except String RequestStore := do
  if !(truthy req.provider) || !(truthy req.provider_id) ||
      !(env.registered (req.provider.getD "")) then
    return safe_update_status db now rid "failed" (some "No metadata provider info") none
  match (← env.get_book (req.provider_id.getD "")) with
  | none => return safe_update_status db now rid "failed" (some "Book not found in provider") none
  | some _book =>
    if (enabledSources env).isEmpty then
      return safe_update_status db now rid "failed" (some "No release sources available") none
    match aggregatedReleases env with
    | [] => return safe_update_status db now rid "failed" (some "No releases found") none
    | release :: _ =>
      let qr ← env.queue
      if qr.1 then
        return safe_update_status db now rid "downloading" none (some (release.source_id.getD ""))
      else
        return safe_update_status db now rid "failed" (some (queueFailNote qr.2)) none

/-- `_auto_download_request`: the catch-all handler turns any escaped
exception into a `failed` status with note `Error: {e}`, and the `finally`
block always releases the download slot. The function is total: no run
raises to its caller. -/
def auto_download_request (env : OrchEnv) (db : RequestStore) (flight : List Nat)
    (now rid : Nat) (req : Request) : RequestStore × List Nat :=
  let db' := match orchBody env db now rid req with
    | Except.ok d => d
    | Except.error e => safe_update_status db now rid "failed" (some ("Error: " ++ e)) none
  (db', release_download_slot flight rid)

/-- ASCII `\w`: letters, digits and underscore. -/
def isWordCh (c : Char) : Bool := c.isAlphanum || c == '_'

/-- `audiobookshelf._normalize`: lower-case, strip punctuation
(`re.sub(r'[^\w\s]', '', s.lower()).strip()`), over the ASCII range. -/
def normalizeStr (s : String) : List Char :=
  stripChars ((s.data.map Char.toLower).filter (fun c => isWordCh c || isSpaceCh c))

/-- Ascending positions of character `c` in `b`, from index `j` on
(the `b2j` table of `difflib.SequenceMatcher`). -/
def positionsOfAux (c : Char) : List Char → Nat → List Nat
  | [], _ => []
  | x :: xs, j =>
    if x == c then j :: positionsOfAux c xs (j + 1) else positionsOfAux c xs (j + 1)

def positionsOf (b : List Char) (c : Char) : List Nat := positionsOfAux c b 0

/-- Lookup in the `j2len` association list (missing key → 0). -/
def alookup (l : List (Nat × Nat)) (k : Nat) : Nat :=
  match l.find? (fun p => p.1 == k) with
  | some p => p.2
  | none => 0

/-- Inner loop of `find_longest_match` for one row `i`: walk the ascending
b-positions of `a[i]`, chaining run lengths through `j2len`, keeping the
first longest run. Mirrors difflib's `continue` below `blo` and `break`
at `bhi`. -/
def flmInner (blo bhi i : Nat) (j2len : List (Nat × Nat)) :
    List Nat → List (Nat × Nat) → Nat × Nat × Nat → List (Nat × Nat) × (Nat × Nat × Nat)
  | [], acc, best => (acc, best)
  | j :: js, acc, best =>
    if j < blo then flmInner blo bhi i j2len js acc best
    else if bhi ≤ j then (acc, best)
    else
      let k := (if j == 0 then 0 else alookup j2len (j - 1)) + 1
      let best' := if best.2.2 < k then (i + 1 - k, j + 1 - k, k) else best
      flmInner blo bhi i j2len js ((j, k) :: acc) best'

/-- Outer loop of `find_longest_match` over the rows `alo ≤ i < ahi`. -/
def flmOuter (a b : List Char) (blo bhi : Nat) :
    List Nat → List (Nat × Nat) → Nat × Nat × Nat → Nat × Nat × Nat
  | [], _, best => best
  | i :: is, j2len, best =>
    let js := positionsOf b (a.getD i ' ')
    let step := flmInner blo bhi i j2len js [] best
    flmOuter a b blo bhi is step.1 step.2

/-- `SequenceMatcher.find_longest_match` on the window `[alo,ahi) × [blo,bhi)`.
difflib's junk machinery (the `autojunk` popularity heuristic, active only when
`len(b) >= 200`, and the junk-adjacent extension phases, no-ops without junk)
is not modelled: every string matched in this system is far below 200
characters. -/
def findLongestMatch (a b : List Char) (alo ahi blo bhi : Nat) : Nat × Nat × Nat :=
  flmOuter a b blo bhi (List.range' alo (ahi - alo)) [] (alo, blo, 0)

/-- Total size of `get_matching_blocks`, by the standard recursive splitting
around the longest match; the fuel strictly bounds the recursion depth. -/
def matchTotal (a b : List Char) : Nat → Nat → Nat → Nat → Nat → Nat
  | 0, _, _, _, _ => 0
  | fuel + 1, alo, ahi, blo, bhi =>
    let m := findLongestMatch a b alo ahi blo bhi
    if m.2.2 == 0 then 0
    else
      matchTotal a b fuel alo m.1 blo m.2.1 + m.2.2 +
        matchTotal a b fuel (m.1 + m.2.2) ahi (m.2.1 + m.2.2) bhi

/-- The `M` of `SequenceMatcher.ratio() = 2*M / (len(a)+len(b))`. -/
def matchSum (a b : List Char) : Nat :=
  matchTotal a b (a.length + 1) 0 a.length 0 b.length

/-- `ratio() ≥ num/den`, as an exact rational comparison:
`2*M/(la+lb) ≥ num/den  ↔  num*(la+lb) ≤ 2*M*den`. difflib returns 1.0 on two
empty sequences, hence the `l == 0` case. The Python code compares the float
ratio against the literals 0.85 and 0.70; the comparison is modelled exactly
over the rationals 85/100 and 70/100. -/
def ratioGe (a b : List Char) (num den : Nat) : Bool :=
  let l := a.length + b.length
  if l == 0 then Nat.ble num den else Nat.ble (num * l) (2 * matchSum a b * den)

/-- One cached Audiobookshelf item (`{id, title, author}`). -/
structure AbsEntry where
  id : String
  title : String
  author : String
  deriving DecidableEq

/-- The title test of `find_match`: edit-ratio ≥ 0.85, or either normalized
title a leading segment of the other. -/
def absTitleOk (nt it : List Char) : Bool :=
  ratioGe nt it 85 100 || startsWithL it nt || startsWithL nt it

/-- The author test of `find_match`: vacuous when either normalized author is
empty, else edit-ratio ≥ 0.70. -/
def absAuthorOk (na ia : List Char) : Bool :=
  na.isEmpty || ia.isEmpty || ratioGe na ia 70 100

/-- Whether one cached entry matches the (already normalized) query. -/
def matchesEntry (title author : String) (e : AbsEntry) : Bool :=
  absTitleOk (normalizeStr title) (normalizeStr e.title) &&
    absAuthorOk (normalizeStr author) (normalizeStr e.author)

/-- The scan loop of `ABSClient.find_match`, with the code's exact control
flow (`continue` on a failed title test, early `return` on empty authors). -/
def findMatchLoop (nt na : List Char) : List AbsEntry → Option AbsEntry
  | [] => none
  | item :: rest =>
    let it := normalizeStr item.title
    let ia := normalizeStr item.author
    let tGe := ratioGe nt it 85 100
    let pfxOk := startsWithL it nt || startsWithL nt it
    if !tGe && !pfxOk then findMatchLoop nt na rest
    else if na.isEmpty || ia.isEmpty then some item
    else if ratioGe na ia 70 100 then some item
    else findMatchLoop nt na rest

/-- One Audiobookshelf library as listed by `GET /api/libraries`. -/
structure AbsLib where
  id : String
  mediaType : String
  deriving DecidableEq

/-- One raw library item; `title`/`author` are `""` when the metadata lacks
them (`meta.get('title') or ''`). -/
structure AbsRawItem where
  id : String
  title : String
  author : String
  deriving DecidableEq

/-- Environment of one `ABSClient.refresh` call. `url`/`token` are the
credentials after Python falsiness (`none` = unset or blank); `libraries` and
`itemsOf` are the two HTTP fetches, `Except.error` modelling any raised
exception (network error, bad status, malformed JSON). -/
structure RefreshEnv where
  url : Option String
  token : Option String
  libraries : Except String (List AbsLib)
  itemsOf : String → Except String (List AbsRawItem)

/-- `ABSClient.is_configured`. -/
def absConfigured (env : RefreshEnv) : Bool := env.url.isSome && env.token.isSome

/-- The in-memory snapshot of the duplicate-detection cache. -/
structure AbsState where
  cache : List AbsEntry
  deriving DecidableEq

/-- The item-collection loop of `refresh`: only `mediaType == 'book'`
libraries, only items with a nonempty title; the first raised exception
aborts the whole fetch. -/
def collectLibs (env : RefreshEnv) : List AbsLib → Except String (List AbsEntry)
  | [] => Except.ok []
  | lib :: rest =>
    if !(lib.mediaType == "book") then collectLibs env rest
    else
      match env.itemsOf lib.id with
      | Except.error e => Except.error e
      | Except.ok raw =>
        let items := (raw.filter (fun it => !(it.title == ""))).map
          (fun it => AbsEntry.mk it.id it.title it.author)
        match collectLibs env rest with
        | Except.error e => Except.error e
        | Except.ok more => Except.ok (items ++ more)

/-- The whole catalog fetch of `refresh` (libraries listing plus per-library
items), up to the point where the snapshot would be swapped. -/
def absFetch (env : RefreshEnv) : Except String (List AbsEntry) :=
  match env.libraries with
  | Except.error e => Except.error e
  | Except.ok libs => collectLibs env libs

/-- `ABSClient.refresh`: on missing credentials or any error, report 0 and
leave the snapshot untouched; on success, swap in the freshly built snapshot
wholesale and report its size. -/
def ABSClient.refresh (env : RefreshEnv) (st : AbsState) : Nat × AbsState :=
  if absConfigured env then
    match absFetch env with
    | Except.ok items => (items.length, AbsState.mk items)
    | Except.error _ => (0, st)
  else (0, st)

/-- `ABSClient.find_match`: on a cold cache, attempt one synchronous refresh
when configured (an unconfigured empty cache yields no match), then scan. -/
def ABSClient.find_match (env : RefreshEnv) (st : AbsState) (title author : String) :
    Option AbsEntry × AbsState :=
  if st.cache.isEmpty then
    if !(absConfigured env) then (none, st)
    else
      let st' := (ABSClient.refresh env st).2
      (findMatchLoop (normalizeStr title) (normalizeStr author) st'.cache, st')
  else (findMatchLoop (normalizeStr title) (normalizeStr author) st.cache, st)

/-- The store an orchestrator failure step leaves behind: only the row with
the given id changes, and on it only `status`, `admin_note`, `updated_at`. -/
def failedUpdateStore (db : RequestStore) (now rid : Nat) (note : String) : RequestStore :=
  { db with requests := db.requests.map (fun r =>
      if r.id == rid then { r with status := "failed", admin_note := some note, updated_at := now }
      else r) }

/-- The store invariant of §3 of the spec: every row's `status` and
`content_type` lie in their enumerated sets. -/
def validStore (db : RequestStore) : Prop :=
  ∀ r ∈ db.requests, VALID_STATUSES.contains r.status = true ∧
    VALID_CONTENT_TYPES.contains r.content_type = true

/-- Concrete fixture: a denied request, for exercising the approve guard. -/
def c1req : Request := { id := 1, user_id := 7, status := "denied", title := "Dune" }

def c1db : RequestStore := RequestStore.mk [c1req] [7]

/-- Concrete fixture: a store with one valid pending row. -/
def c2db : RequestStore :=
  RequestStore.mk [{ id := 1, user_id := 7, status := "pending", title := "Dune" }] [7]

/-- Concrete fixture: an approved ebook request lacking provider metadata. -/
def c3req : Request :=
  { id := 1, user_id := 7, status := "approved", content_type := "ebook", title := "Dune" }

def c3db : RequestStore := RequestStore.mk [c3req] [7]

/-- Concrete orchestrator environment in which every collaborator is inert. -/
def c3env : OrchEnv :=
  OrchEnv.mk (fun _ => false) (fun _ => Except.ok none) [] (fun _ => Except.ok [])
    (Except.ok (false, none))

def c4req : Request := { id := 5, user_id := 7, status := "approved", title := "Dune" }

def c4db : RequestStore := RequestStore.mk [c4req] [7]

def c4env : OrchEnv :=
  OrchEnv.mk (fun _ => false) (fun _ => Except.ok none) [] (fun _ => Except.ok [])
    (Except.ok (false, none))

/-- Counterexample fixture: an active id-less ebook request titled "Dune". -/
def dupEx : Request :=
  { id := 1, user_id := 1, status := "pending", content_type := "ebook", title := "Dune" }

def dupDb : RequestStore := RequestStore.mk [dupEx] [1]

/-- Counterexample fixture: a second submission of the same title, this time
carrying provider identifiers. -/
def dupBody : CreateBody :=
  { title := some "Dune", provider := some "openlibrary", provider_id := some "OL1" }

/-- Witness fixture: the same duplicate scenario with an id-less new body. -/
def c5body : CreateBody := { title := some "Dune" }

/-- Concrete fixture: a failed ebook request lacking provider metadata. -/
def c6req : Request :=
  { id := 1, user_id := 7, status := "failed", content_type := "ebook", title := "Dune" }

def c6db : RequestStore := RequestStore.mk [c6req] [7, 2]

/-- Concrete retry environment whose metadata search finds one result. -/
def c6env : RetryEnv := RetryEnv.mk "openlibrary" true (Except.ok [MetaResult.mk "OL99"])

def c7db : RequestStore := RequestStore.mk [] []

def c7req : Request := { id := 3, user_id := 7, title := "Dune" }

def c7env : OrchEnv :=
  OrchEnv.mk (fun _ => true) (fun _ => Except.ok (some (Book.mk [] none none none none)))
    [SourceInfo.mk "annas" true] (fun _ => Except.ok [Release.mk (some "t1")])
    (Except.ok (true, none))

/-- The cached entry of the spec's first `find_match` example. -/
def hobbitNovel : AbsEntry := AbsEntry.mk "abs1" "The Hobbit A Novel" "J.R.R. Tolkien"

/-- The cached entry of the spec's second `find_match` example. -/
def hobbitOther : AbsEntry := AbsEntry.mk "abs2" "The Hobbit" "Someone Else"

/-- An idle refresh environment (unconfigured, empty catalog). -/
def absEnvIdle : RefreshEnv := RefreshEnv.mk none none (Except.ok []) (fun _ => Except.ok [])

/-- A configured refresh environment whose libraries fetch raises. -/
def c9envFail : RefreshEnv :=
  RefreshEnv.mk (some "http://abs") (some "tok") (Except.error "connection refused")
    (fun _ => Except.ok [])

/-- A configured refresh environment with one book library of one item. -/
def c9envOk : RefreshEnv :=
  RefreshEnv.mk (some "http://abs") (some "tok") (Except.ok [AbsLib.mk "lib1" "book"])
    (fun _ => Except.ok [AbsRawItem.mk "i1" "Dune" "Frank Herbert"])

def c10db : RequestStore :=
  RequestStore.mk
    [{ id := 1, user_id := 7, status := "pending", title := "Dune" },
     { id := 2, user_id := 7, status := "pending", title := "Emma" }] [7]

-- From here on: lemmas and theorems about the embedded program.

/-- Mapping an id-preserving row update across the table commutes with
looking a row up by id. -/
theorem find?_id_map (l : List Request) (rid : Nat) (g : Request → Request)
    (hid : ∀ r, (g r).id = r.id) :
    (l.map (fun r => if r.id == rid then g r else r)).find? (fun r => r.id == rid) =
      Option.map g (l.find? (fun r => r.id == rid)) := by
  induction l with
  | nil => rfl
  | cons a l ih =>
    simp only [List.map_cons]
    by_cases h : (a.id == rid) = true
    · rw [if_pos h]
      have hg : ((g a).id == rid) = true := by rw [hid a]; exact h
      simp only [List.find?_cons, hg, h, Option.map_some']
    · rw [if_neg h]
      have h' : (a.id == rid) = false := by simpa using h
      simp only [List.find?_cons, h']
      exact ih

/-- `getRequest` after an id- and owner-preserving in-place row update. -/
theorem getRequest_mapUpdate (db : RequestStore) (rid : Nat) (g : Request → Request)
    (hid : ∀ r, (g r).id = r.id) (huser : ∀ r, (g r).user_id = r.user_id) :
    RequestStore.getRequest
        { db with requests := db.requests.map (fun r => if r.id == rid then g r else r) } rid =
      Option.map g (db.getRequest rid) := by
  unfold RequestStore.getRequest
  rw [find?_id_map db.requests rid g hid]
  cases h : db.requests.find? (fun r => r.id == rid) with
  | none => rfl
  | some r =>
    simp only [Option.map_some']
    rw [huser r]
    by_cases hc : db.users.contains r.user_id = true
    · simp [hc]
    · simp only [Bool.not_eq_true] at hc
      simp [hc]

theorem applyStatusUpdate_id (now : Nat) (s : String) (an : Option String) (ab : Option Nat)
    (tid : Option String) (r : Request) : (applyStatusUpdate now s an ab tid r).id = r.id := rfl

theorem applyStatusUpdate_user (now : Nat) (s : String) (an : Option String) (ab : Option Nat)
    (tid : Option String) (r : Request) :
    (applyStatusUpdate now s an ab tid r).user_id = r.user_id := rfl

/-- Looking up the updated row after a (valid) `update_request_status`. -/
theorem getRequest_updateStatus (db : RequestStore) (now rid : Nat) (s : String)
    (an : Option String) (ab : Option Nat) (tid : Option String)
    (hs : VALID_STATUSES.contains s = true) :
    ((db.updateRequestStatus now rid s an ab tid).1).getRequest rid =
      Option.map (applyStatusUpdate now s an ab tid) (db.getRequest rid) := by
  unfold RequestStore.updateRequestStatus
  simp only [hs, if_true]
  exact getRequest_mapUpdate db rid _ (applyStatusUpdate_id now s an ab tid)
    (applyStatusUpdate_user now s an ab tid)

theorem applyMetadataUpdate_id (now : Nat) (p pid : Option String) (r : Request) :
    (applyMetadataUpdate now p pid r).id = r.id := rfl

theorem applyMetadataUpdate_user (now : Nat) (p pid : Option String) (r : Request) :
    (applyMetadataUpdate now p pid r).user_id = r.user_id := rfl

/-- Looking up the updated row after an `update_request_metadata`. -/
theorem getRequest_updateMetadata (db : RequestStore) (now rid : Nat) (p pid : Option String) :
    ((db.updateRequestMetadata now rid p pid).1).getRequest rid =
      Option.map (applyMetadataUpdate now p pid) (db.getRequest rid) := by
  unfold RequestStore.updateRequestMetadata
  exact getRequest_mapUpdate db rid _ (applyMetadataUpdate_id now p pid)
    (applyMetadataUpdate_user now p pid)

/-- When the request still exists, `_safe_update_status "failed"` performs
exactly the three-field row update. -/
theorem safe_update_failed_eq (db : RequestStore) (now rid : Nat) (note : String)
    (h : (db.getRequest rid).isSome = true) :
    safe_update_status db now rid "failed" (some note) none =
      failedUpdateStore db now rid note := by
  unfold safe_update_status
  simp only [h, if_true]
  unfold RequestStore.updateRequestStatus
  have hv : VALID_STATUSES.contains "failed" = true := rfl
  simp only [hv, if_true]
  rfl

/-- When the request is gone, `_safe_update_status` is the identity. -/
theorem safe_update_skip (db : RequestStore) (now rid : Nat) (s : String)
    (an tid : Option String) (h : db.getRequest rid = none) :
    safe_update_status db now rid s an tid = db := by
  unfold safe_update_status
  simp [h]

theorem mem_insertByCreatedDesc (r x : Request) (l : List Request) :
    x ∈ insertByCreatedDesc r l ↔ x = r ∨ x ∈ l := by
  induction l with
  | nil => simp [insertByCreatedDesc]
  | cons a l ih =>
    by_cases h : r.created_at ≤ a.created_at
    · rw [insertByCreatedDesc, if_pos h]
      simp only [List.mem_cons, ih]
      tauto
    · rw [insertByCreatedDesc, if_neg h]
      simp only [List.mem_cons]

theorem mem_sortByCreatedDesc (x : Request) (l : List Request) :
    x ∈ sortByCreatedDesc l ↔ x ∈ l := by
  induction l with
  | nil => simp [sortByCreatedDesc]
  | cons a l ih =>
    rw [sortByCreatedDesc]
    simp only [mem_insertByCreatedDesc, List.mem_cons, ih]

theorem length_insertByCreatedDesc (r : Request) (l : List Request) :
    (insertByCreatedDesc r l).length = l.length + 1 := by
  induction l with
  | nil => rfl
  | cons a l ih =>
    by_cases h : r.created_at ≤ a.created_at
    · simp [insertByCreatedDesc, if_pos h, ih]
    · simp [insertByCreatedDesc, if_neg h]

theorem length_sortByCreatedDesc (l : List Request) :
    (sortByCreatedDesc l).length = l.length := by
  induction l with
  | nil => rfl
  | cons a l ih => simp [sortByCreatedDesc, length_insertByCreatedDesc, ih]

theorem length_filter_mono {α : Type} (l : List α) (p q : α → Bool)
    (h : ∀ a, p a = true → q a = true) :
    (l.filter p).length ≤ (l.filter q).length := by
  induction l with
  | nil => simp
  | cons a l ih =>
    by_cases hp : p a = true
    · rw [List.filter_cons_of_pos hp, List.filter_cons_of_pos (h a hp)]
      simpa using ih
    · rw [List.filter_cons_of_neg (by simpa using hp)]
      by_cases hq : q a = true
      · rw [List.filter_cons_of_pos hq]
        exact le_trans ih (by simp)
      · rw [List.filter_cons_of_neg (by simpa using hq)]
        exact ih

theorem init_le_foldl_max (l : List Request) (init : Nat) :
    init ≤ l.foldl (fun m x => max m x.id) init := by
  induction l generalizing init with
  | nil => simp
  | cons a l ih => exact le_trans (le_max_left init a.id) (ih (max init a.id))

theorem mem_id_le_foldl_max (l : List Request) (r : Request) (h : r ∈ l) (init : Nat) :
    r.id ≤ l.foldl (fun m x => max m x.id) init := by
  induction l generalizing init with
  | nil => cases h
  | cons a l ih =>
    rcases List.mem_cons.mp h with rfl | h'
    · exact le_trans (le_max_right init r.id) (init_le_foldl_max l (max init r.id))
    · exact ih h' (max init a.id)

/-- Every row's id is strictly below the AUTOINCREMENT id of a fresh row. -/
theorem id_lt_nextId (db : RequestStore) (r : Request) (h : r ∈ db.requests) :
    r.id < db.nextId :=
  Nat.lt_succ_of_le (mem_id_le_foldl_max db.requests r h 0)

theorem find?_append_left_none {α : Type} (l₁ l₂ : List α) (p : α → Bool)
    (h : l₁.find? p = none) : (l₁ ++ l₂).find? p = l₂.find? p := by
  rw [List.find?_append, h, Option.none_or]

/-- C1: for every request whose current status is not `pending`,
`POST /api/requests/{id}/approve` returns HTTP 400 and performs no store
mutation: the store (hence the request row, including its `status`,
`approved_by` and `updated_at`) and the in-flight set are exactly as before
the call, and no download thread is spawned. -/
theorem claim_c1_approve_non_pending_no_mutation
    (db : RequestStore) (flight : List Nat) (now adminId rid : Nat) (req : Request)
    (hget : db.getRequest rid = some req) (hst : req.status ≠ "pending") :
    approve_request_route db flight now adminId rid = ⟨400, db, flight, false⟩ := by
  unfold approve_request_route
  rw [hget]
  have hb : (req.status == "pending") = false := by
    rw [beq_eq_false_iff_ne]
    exact hst
  simp [hb]

theorem claim_c1_witness :
    c1db.getRequest 1 = some c1req ∧ c1req.status ≠ "pending" ∧
      approve_request_route c1db [] 9 2 1 = ⟨400, c1db, [], false⟩ :=
  ⟨by decide, by decide,
    claim_c1_approve_non_pending_no_mutation c1db [] 9 2 1 c1req (by decide) (by decide)⟩

/-- C2: `update_request_status` called with a status outside the enumerated
set, and `create_request` called with a content_type outside its set, fail
before any write, returning the store unchanged (no partial write); and both
operations preserve the invariant that every stored row's `status` and
`content_type` are members of their enumerated sets. -/
theorem claim_c2_status_content_type_validation :
    (∀ db now rid s an ab tid, VALID_STATUSES.contains s = false →
        RequestStore.updateRequestStatus db now rid s an ab tid =
          (db, Except.error ("Invalid status: " ++ s))) ∧
    (∀ db now uid title ct a y cu d i10 i13 p pid sn sp,
        VALID_CONTENT_TYPES.contains ct = false →
        RequestStore.createRequest db now uid title ct a y cu d i10 i13 p pid sn sp =
          (db, Except.error ("Invalid content_type: " ++ ct))) ∧
    (∀ db now rid s an ab tid, validStore db →
        validStore (RequestStore.updateRequestStatus db now rid s an ab tid).1) ∧
    (∀ db now uid title ct a y cu d i10 i13 p pid sn sp, validStore db →
        validStore (RequestStore.createRequest db now uid title ct a y cu d i10 i13 p pid sn sp).1) := by
  refine ⟨?_, ?_, ?_, ?_⟩
  · intro db now rid s an ab tid hs
    unfold RequestStore.updateRequestStatus
    simp only [hs, Bool.false_eq_true, if_false]
  · intro db now uid title ct a y cu d i10 i13 p pid sn sp hct
    unfold RequestStore.createRequest
    simp only [hct, Bool.false_eq_true, if_false]
  · intro db now rid s an ab tid hv
    by_cases hs : VALID_STATUSES.contains s = true
    · unfold RequestStore.updateRequestStatus
      simp only [hs, if_true]
      intro r hr
      simp only [List.mem_map] at hr
      rcases hr with ⟨a, ha, rfl⟩
      by_cases hia : (a.id == rid) = true
      · rw [if_pos hia]
        exact ⟨hs, (hv a ha).2⟩
      · rw [if_neg hia]
        exact hv a ha
    · unfold RequestStore.updateRequestStatus
      simp only [Bool.not_eq_true] at hs
      simp only [hs, Bool.false_eq_true, if_false]
      exact hv
  · intro db now uid title ct a y cu d i10 i13 p pid sn sp hv
    by_cases hct : VALID_CONTENT_TYPES.contains ct = true
    · unfold RequestStore.createRequest
      simp only [hct, if_true]
      intro r hr
      simp only [List.mem_append, List.mem_singleton] at hr
      rcases hr with hr | rfl
      · exact hv r hr
      · exact ⟨rfl, hct⟩
    · unfold RequestStore.createRequest
      simp only [Bool.not_eq_true] at hct
      simp only [hct, Bool.false_eq_true, if_false]
      exact hv

theorem claim_c2_witness :
    VALID_STATUSES.contains "bogus" = false ∧
    RequestStore.updateRequestStatus c2db 3 1 "bogus" none none none =
      (c2db, Except.error "Invalid status: bogus") ∧
    VALID_CONTENT_TYPES.contains "comic" = false ∧
    RequestStore.createRequest c2db 3 7 "Emma" "comic" none none none none none none none none
        none none =
      (c2db, Except.error "Invalid content_type: comic") ∧
    validStore (RequestStore.updateRequestStatus c2db 3 1 "approved" none none none).1 :=
  ⟨by decide,
    claim_c2_status_content_type_validation.1 c2db 3 1 "bogus" none none none (by decide),
    by decide,
    claim_c2_status_content_type_validation.2.1 c2db 3 7 "Emma" "comic" none none none none
      none none none none none none (by decide),
    claim_c2_status_content_type_validation.2.2.1 c2db 3 1 "approved" none none none
      (by unfold validStore; decide)⟩

/-- C4: admission (`_acquire_download_slot`) inserts the id and returns
`true` iff it was absent, returns `false` leaving the set unchanged when
present (so two admits with no intervening release return `true` then
`false`); release (`_release_download_slot`) is idempotent and a no-op on an
absent id; and the orchestrator's `finally` block releases on every exit
path — for every environment, the id is absent from the in-flight set the
run leaves behind. -/
theorem claim_c4_guard_semantics :
    (∀ flight rid, ((acquire_download_slot flight rid).1 = true ↔ rid ∉ flight)) ∧
    (∀ flight rid, rid ∈ flight → acquire_download_slot flight rid = (false, flight)) ∧
    (∀ flight rid, (acquire_download_slot flight rid).1 = true →
      acquire_download_slot (acquire_download_slot flight rid).2 rid =
        (false, (acquire_download_slot flight rid).2)) ∧
    (∀ flight rid,
      release_download_slot (release_download_slot flight rid) rid =
        release_download_slot flight rid) ∧
    (∀ flight rid, rid ∉ flight → release_download_slot flight rid = flight) ∧
    (∀ env db flight now rid req,
      (auto_download_request env db flight now rid req).2 = release_download_slot flight rid ∧
        rid ∉ (auto_download_request env db flight now rid req).2) := by
  have hc : ∀ (flight : List Nat) (rid : Nat), flight.contains rid = true ↔ rid ∈ flight := by
    intro flight rid
    simp [List.contains]
  refine ⟨?_, ?_, ?_, ?_, ?_, ?_⟩
  · intro flight rid
    unfold acquire_download_slot
    by_cases hm : rid ∈ flight
    · have h := (hc flight rid).mpr hm
      simp [h, hm]
    · have h : flight.contains rid = false := by
        cases hcc : flight.contains rid
        · rfl
        · exact absurd ((hc flight rid).mp hcc) hm
      simp [h, hm]
  · intro flight rid hm
    have h := (hc flight rid).mpr hm
    unfold acquire_download_slot
    simp [h, hm]
  · intro flight rid h1
    unfold acquire_download_slot at h1 ⊢
    by_cases hm : rid ∈ flight
    · rw [if_pos ((hc flight rid).mpr hm)] at h1
      simp at h1
    · have h : flight.contains rid = false := by
        cases hcc : flight.contains rid
        · rfl
        · exact absurd ((hc flight rid).mp hcc) hm
      simp only [h, Bool.false_eq_true, if_false]
      have h2 : (rid :: flight).contains rid = true :=
        (hc (rid :: flight) rid).mpr (List.mem_cons_self rid flight)
      simp [h2]
  · intro flight rid
    unfold release_download_slot
    rw [List.filter_filter]
    simp [Bool.and_self]
  · intro flight rid hm
    unfold release_download_slot
    rw [List.filter_eq_self]
    intro a ha
    have : a ≠ rid := fun he => hm (he ▸ ha)
    simpa using this
  · intro env db flight now rid req
    constructor
    · rfl
    · show rid ∉ release_download_slot flight rid
      unfold release_download_slot
      intro hm
      rcases List.mem_filter.mp hm with ⟨_, hp⟩
      simp at hp

theorem claim_c4_witness :
    acquire_download_slot [] 5 = (true, [5]) ∧
    acquire_download_slot [5] 5 = (false, [5]) ∧
    release_download_slot (release_download_slot [4, 5] 5) 5 = release_download_slot [4, 5] 5 ∧
    release_download_slot [4] 5 = [4] ∧
    (auto_download_request c4env c4db [5] 0 5 c4req).2 = release_download_slot [5] 5 ∧
    5 ∉ (auto_download_request c4env c4db [5] 0 5 c4req).2 :=
  ⟨by decide,
    claim_c4_guard_semantics.2.1 [5] 5 (by decide),
    claim_c4_guard_semantics.2.2.2.1 [4, 5] 5,
    claim_c4_guard_semantics.2.2.2.2.1 [4] 5 (by decide),
    (claim_c4_guard_semantics.2.2.2.2.2 c4env c4db [5] 0 5 c4req).1,
    (claim_c4_guard_semantics.2.2.2.2.2 c4env c4db [5] 0 5 c4req).2⟩

/-- Normal form of the orchestrator body: the `try:` block of
`_auto_download_request` as an explicit decision tree over the environment. -/
theorem orchBody_eq (env : OrchEnv) (db : RequestStore) (now rid : Nat) (req : Request) :
    orchBody env db now rid req =
      if !(truthy req.provider) || !(truthy req.provider_id) ||
          !(env.registered (req.provider.getD "")) then
        Except.ok (safe_update_status db now rid "failed" (some "No metadata provider info") none)
      else
        match env.get_book (req.provider_id.getD "") with
        | Except.error e => Except.error e
        | Except.ok none =>
          Except.ok (safe_update_status db now rid "failed" (some "Book not found in provider") none)
        | Except.ok (some _) =>
          if (enabledSources env).isEmpty then
            Except.ok (safe_update_status db now rid "failed"
              (some "No release sources available") none)
          else
            match aggregatedReleases env with
            | [] => Except.ok (safe_update_status db now rid "failed" (some "No releases found") none)
            | release :: _ =>
              match env.queue with
              | Except.error e => Except.error e
              | Except.ok qr =>
                if qr.1 then
                  Except.ok (safe_update_status db now rid "downloading" none
                    (some (release.source_id.getD "")))
                else
                  Except.ok (safe_update_status db now rid "failed"
                    (some (queueFailNote qr.2)) none) := by
  unfold orchBody
  by_cases h1 : (!(truthy req.provider) || !(truthy req.provider_id) ||
      !(env.registered (req.provider.getD ""))) = true
  · simp [h1, Pure.pure, Except.pure]
  · have h1' : (!(truthy req.provider) || !(truthy req.provider_id) ||
        !(env.registered (req.provider.getD ""))) = false := by simpa using h1
    simp only [h1', Bool.false_eq_true, if_false]
    cases hgb : env.get_book (req.provider_id.getD "") with
    | error e => simp [hgb, Bind.bind, Except.bind, Pure.pure, Except.pure]
    | ok ob =>
      cases ob with
      | none => simp [hgb, Bind.bind, Except.bind, Pure.pure, Except.pure]
      | some b =>
        by_cases h2 : (enabledSources env).isEmpty = true
        · simp [hgb, Bind.bind, Except.bind, h2, Pure.pure, Except.pure]
        · have h2' : (enabledSources env).isEmpty = false := by simpa using h2
          simp only [hgb, Bind.bind, Except.bind, h2', Bool.false_eq_true, if_false]
          cases hag : aggregatedReleases env with
          | nil => simp [hag, Pure.pure, Except.pure]
          | cons rel rest =>
            cases hq : env.queue with
            | error e => simp [hq, Pure.pure, Except.pure]
            | ok qr =>
              by_cases h3 : qr.1 = true
              · simp [hq, h3, Pure.pure, Except.pure]
              · have h3' : qr.1 = false := by simpa using h3
                simp [hq, h3', Bool.false_eq_true, Pure.pure, Except.pure]

/-- C7: every status mutation of the orchestrator goes through
`_safe_update_status`, which first re-checks that the request still exists;
when it does not (deleted mid-flight), the mutation is skipped silently —
no row is written, and a whole orchestrator run over a deleted request
leaves the store exactly unchanged (and raises nothing, the run being a
total function). -/
theorem claim_c7_deleted_request_skips_mutation
    (db : RequestStore) (now rid : Nat) (s : String) (an tid : Option String)
    (env : OrchEnv) (flight : List Nat) (req : Request)
    (h : db.getRequest rid = none) :
    safe_update_status db now rid s an tid = db ∧
      (auto_download_request env db flight now rid req).1 = db := by
  have hskip : ∀ s' an' tid', safe_update_status db now rid s' an' tid' = db :=
    fun s' an' tid' => safe_update_skip db now rid s' an' tid' h
  refine ⟨hskip s an tid, ?_⟩
  unfold auto_download_request
  rw [orchBody_eq]
  by_cases h1 : (!(truthy req.provider) || !(truthy req.provider_id) ||
      !(env.registered (req.provider.getD ""))) = true
  · simp [h1, hskip]
  · have h1' : (!(truthy req.provider) || !(truthy req.provider_id) ||
        !(env.registered (req.provider.getD ""))) = false := by simpa using h1
    simp only [h1', Bool.false_eq_true, if_false]
    cases hgb : env.get_book (req.provider_id.getD "") with
    | error e => simp [hgb, hskip]
    | ok ob =>
      cases ob with
      | none => simp [hgb, hskip]
      | some b =>
        by_cases h2 : (enabledSources env).isEmpty = true
        · simp [hgb, h2, hskip]
        · have h2' : (enabledSources env).isEmpty = false := by simpa using h2
          simp only [hgb, h2', Bool.false_eq_true, if_false]
          cases hag : aggregatedReleases env with
          | nil => simp [hag, hskip]
          | cons rel rest =>
            cases hq : env.queue with
            | error e => simp [hq, hskip]
            | ok qr =>
              by_cases h3 : qr.1 = true
              · simp [hq, h3, hskip]
              · have h3' : qr.1 = false := by simpa using h3
                simp [hq, h3', hskip]

theorem claim_c7_witness :
    c7db.getRequest 3 = none ∧
    safe_update_status c7db 9 3 "failed" (some "No releases found") none = c7db ∧
    (auto_download_request c7env c7db [] 9 3 c7req).1 = c7db :=
  ⟨by decide,
    (claim_c7_deleted_request_skips_mutation c7db 9 3 "failed" (some "No releases found") none
      c7env [] c7req (by decide)).1,
    (claim_c7_deleted_request_skips_mutation c7db 9 3 "failed" (some "No releases found") none
      c7env [] c7req (by decide)).2⟩

/-- C9: a `refresh()` whose catalog fetch fails at any point (missing
credentials, the libraries listing raising, or any per-library items fetch
raising) returns 0 and leaves the previous in-memory snapshot exactly as it
was; only a fully successful fetch replaces the snapshot, as one
full-replace swap. -/
theorem claim_c9_refresh_fail_open :
    (∀ env st, absConfigured env = false → ABSClient.refresh env st = (0, st)) ∧
    (∀ env st e, absFetch env = Except.error e → ABSClient.refresh env st = (0, st)) ∧
    (∀ env st items, absConfigured env = true → absFetch env = Except.ok items →
        ABSClient.refresh env st = (items.length, AbsState.mk items)) := by
  refine ⟨?_, ?_, ?_⟩
  · intro env st h
    unfold ABSClient.refresh
    simp [h]
  · intro env st e h
    unfold ABSClient.refresh
    by_cases hcfg : absConfigured env = true
    · simp [hcfg, h]
    · have hcfg' : absConfigured env = false := by simpa using hcfg
      simp [hcfg']
  · intro env st items hcfg h
    unfold ABSClient.refresh
    simp [hcfg, h]

theorem claim_c9_witness :
    absConfigured absEnvIdle = false ∧
    ABSClient.refresh absEnvIdle (AbsState.mk [AbsEntry.mk "x" "X" "Y"]) =
      (0, AbsState.mk [AbsEntry.mk "x" "X" "Y"]) ∧
    absFetch c9envFail = Except.error "connection refused" ∧
    ABSClient.refresh c9envFail (AbsState.mk [AbsEntry.mk "x" "X" "Y"]) =
      (0, AbsState.mk [AbsEntry.mk "x" "X" "Y"]) ∧
    ABSClient.refresh c9envOk (AbsState.mk []) =
      (1, AbsState.mk [AbsEntry.mk "i1" "Dune" "Frank Herbert"]) :=
  ⟨by decide,
    claim_c9_refresh_fail_open.1 absEnvIdle (AbsState.mk [AbsEntry.mk "x" "X" "Y"]) (by decide),
    rfl,
    claim_c9_refresh_fail_open.2.1 c9envFail (AbsState.mk [AbsEntry.mk "x" "X" "Y"])
      "connection refused" rfl,
    claim_c9_refresh_fail_open.2.2 c9envOk (AbsState.mk [])
      [AbsEntry.mk "i1" "Dune" "Frank Herbert"] (by decide) rfl⟩

/-- C10: at `GET /api/requests` the limit parameter is only capped from
above (`min(limit, 1000)` with no lower clamp), so a negative limit is
forwarded unchanged to the store's SQL LIMIT clause, where a negative limit
means unlimited: the returned page is the whole remainder of the matching
rows, and with offset 0 its length is the full match count, unconstrained
by the 1000-row cap. -/
theorem claim_c10_negative_limit_unbounded
    (db : RequestStore) (isAdmin : Bool) (uid : Option Nat) (statusParam : Option String)
    (l o : Int) (hl : l < 0) :
    (list_requests_route db isAdmin uid statusParam (some l) (some o)).limit = l ∧
    (list_requests_route db isAdmin uid statusParam (some l) (some o)).requests =
      (sortByCreatedDesc (db.requests.filter
        (listPred db (if isAdmin then none else uid) statusParam false))).drop (max 0 o).toNat ∧
    (o = 0 →
      (list_requests_route db isAdmin uid statusParam (some l) (some o)).requests.length =
        (db.requests.filter
          (listPred db (if isAdmin then none else uid) statusParam false)).length) := by
  have hmin : min l 1000 = l := min_eq_left (by omega)
  refine ⟨?_, ?_, ?_⟩
  · unfold list_requests_route
    simp [hmin]
  · unfold list_requests_route RequestStore.listRequests
    simp only [hmin]
    rw [if_pos hl]
  · intro ho
    subst ho
    unfold list_requests_route RequestStore.listRequests
    simp only [hmin]
    rw [if_pos hl]
    simp [length_sortByCreatedDesc]

theorem claim_c10_witness :
    ((-1 : Int) < 0) ∧
    (list_requests_route c10db true none none (some (-1)) (some 0)).limit = -1 ∧
    (list_requests_route c10db true none none (some (-1)) (some 0)).requests.length = 2 :=
  ⟨by decide,
    (claim_c10_negative_limit_unbounded c10db true none none (-1) 0 (by decide)).1,
    by
      have h := (claim_c10_negative_limit_unbounded c10db true none none (-1) 0 (by decide)).2.2
        rfl
      rw [h]
      decide⟩

/-- C3: the orchestrator run is a total function (it never raises to its
caller), and whenever a step fails — provider/provider_id missing or
provider unregistered, book not found, no release source enabled, no
releases aggregated, queuing refused, or any collaborator exception — the
run terminates by setting the request's status to `failed` with the
descriptive admin_note naming that step; the resulting store differs from
the original only on the request's row, and there only in `status`,
`admin_note` and `updated_at` (the shape of `failedUpdateStore`), the
in-flight set always being released. -/
theorem claim_c3_orchestrator_failure_steps
    (env : OrchEnv) (db : RequestStore) (flight : List Nat) (now rid : Nat) (req : Request)
    (hex : (db.getRequest rid).isSome = true) :
    (truthy req.provider = false ∨ truthy req.provider_id = false ∨
        env.registered (req.provider.getD "") = false →
      auto_download_request env db flight now rid req =
        (failedUpdateStore db now rid "No metadata provider info",
          release_download_slot flight rid)) ∧
    (truthy req.provider = true → truthy req.provider_id = true →
      env.registered (req.provider.getD "") = true →
      env.get_book (req.provider_id.getD "") = Except.ok none →
      auto_download_request env db flight now rid req =
        (failedUpdateStore db now rid "Book not found in provider",
          release_download_slot flight rid)) ∧
    (∀ book, truthy req.provider = true → truthy req.provider_id = true →
      env.registered (req.provider.getD "") = true →
      env.get_book (req.provider_id.getD "") = Except.ok (some book) →
      enabledSources env = [] →
      auto_download_request env db flight now rid req =
        (failedUpdateStore db now rid "No release sources available",
          release_download_slot flight rid)) ∧
    (∀ book, truthy req.provider = true → truthy req.provider_id = true →
      env.registered (req.provider.getD "") = true →
      env.get_book (req.provider_id.getD "") = Except.ok (some book) →
      enabledSources env ≠ [] → aggregatedReleases env = [] →
      auto_download_request env db flight now rid req =
        (failedUpdateStore db now rid "No releases found",
          release_download_slot flight rid)) ∧
    (∀ book rel rest em, truthy req.provider = true → truthy req.provider_id = true →
      env.registered (req.provider.getD "") = true →
      env.get_book (req.provider_id.getD "") = Except.ok (some book) →
      enabledSources env ≠ [] → aggregatedReleases env = rel :: rest →
      env.queue = Except.ok (false, em) →
      auto_download_request env db flight now rid req =
        (failedUpdateStore db now rid (queueFailNote em),
          release_download_slot flight rid)) ∧
    (∀ e, truthy req.provider = true → truthy req.provider_id = true →
      env.registered (req.provider.getD "") = true →
      env.get_book (req.provider_id.getD "") = Except.error e →
      auto_download_request env db flight now rid req =
        (failedUpdateStore db now rid ("Error: " ++ e),
          release_download_slot flight rid)) := by
  have hfail : ∀ note, safe_update_status db now rid "failed" (some note) none =
      failedUpdateStore db now rid note :=
    fun note => safe_update_failed_eq db now rid note hex
  refine ⟨?_, ?_, ?_, ?_, ?_, ?_⟩
  · intro hd
    have hcond : (!(truthy req.provider) || !(truthy req.provider_id) ||
        !(env.registered (req.provider.getD ""))) = true := by
      rcases hd with h | h | h <;> simp [h]
    unfold auto_download_request
    rw [orchBody_eq]
    simp [hcond, hfail]
  · intro ha hb hreg hgb
    have hcond : (!(truthy req.provider) || !(truthy req.provider_id) ||
        !(env.registered (req.provider.getD ""))) = false := by simp [ha, hb, hreg]
    unfold auto_download_request
    rw [orchBody_eq]
    simp [hcond, hgb, hfail]
  · intro book ha hb hreg hgb hsrc
    have hcond : (!(truthy req.provider) || !(truthy req.provider_id) ||
        !(env.registered (req.provider.getD ""))) = false := by simp [ha, hb, hreg]
    have h2 : (enabledSources env).isEmpty = true := by simp [hsrc]
    unfold auto_download_request
    rw [orchBody_eq]
    simp [hcond, hgb, h2, hfail]
  · intro book ha hb hreg hgb hne hag
    have hcond : (!(truthy req.provider) || !(truthy req.provider_id) ||
        !(env.registered (req.provider.getD ""))) = false := by simp [ha, hb, hreg]
    have h2 : (enabledSources env).isEmpty = false := by
      cases he : enabledSources env with
      | nil => exact absurd he hne
      | cons a l => simp
    unfold auto_download_request
    rw [orchBody_eq]
    simp [hcond, hgb, h2, hag, hfail]
  · intro book rel rest em ha hb hreg hgb hne hag hq
    have hcond : (!(truthy req.provider) || !(truthy req.provider_id) ||
        !(env.registered (req.provider.getD ""))) = false := by simp [ha, hb, hreg]
    have h2 : (enabledSources env).isEmpty = false := by
      cases he : enabledSources env with
      | nil => exact absurd he hne
      | cons a l => simp
    unfold auto_download_request
    rw [orchBody_eq]
    simp [hcond, hgb, h2, hag, hq, hfail]
  · intro e ha hb hreg hgb
    have hcond : (!(truthy req.provider) || !(truthy req.provider_id) ||
        !(env.registered (req.provider.getD ""))) = false := by simp [ha, hb, hreg]
    unfold auto_download_request
    rw [orchBody_eq]
    simp [hcond, hgb, hfail]

theorem claim_c3_witness :
    (c3db.getRequest 1).isSome = true ∧
    auto_download_request c3env c3db [1] 9 1 c3req =
      (failedUpdateStore c3db 9 1 "No metadata provider info", release_download_slot [1] 1) :=
  ⟨by decide,
    (claim_c3_orchestrator_failure_steps c3env c3db [1] 9 1 c3req (by decide)).1
      (Or.inl (by decide))⟩

/-- The scan loop of `find_match` returns exactly the first cached entry
satisfying the title-and-author fuzzy predicate. -/
theorem findMatchLoop_eq (nt na : List Char) (l : List AbsEntry) :
    findMatchLoop nt na l =
      l.find? (fun e => absTitleOk nt (normalizeStr e.title) &&
        absAuthorOk na (normalizeStr e.author)) := by
  induction l with
  | nil => rfl
  | cons item rest ih =>
    cases hge : ratioGe nt (normalizeStr item.title) 85 100 <;>
    cases hsw1 : startsWithL (normalizeStr item.title) nt <;>
    cases hsw2 : startsWithL nt (normalizeStr item.title) <;>
    cases hnae : na.isEmpty <;>
    cases hiae : (normalizeStr item.author).isEmpty <;>
    cases hrg : ratioGe na (normalizeStr item.author) 70 100 <;>
      simp [findMatchLoop, List.find?_cons, absTitleOk, absAuthorOk, hge, hsw1, hsw2, hnae,
        hiae, hrg, ih]

/-- C8: on a warm cache, `find_match(title, author)` returns the first cached
entry whose normalized titles have edit-ratio ≥ 0.85 or are in a prefix
relation, and whose authors are vacuously compatible (either normalized
author empty) or have edit-ratio ≥ 0.70 — and on the spec's two concrete
examples it returns the `The Hobbit A Novel` entry and no entry
respectively. -/
theorem claim_c8_find_match :
    (∀ env st title author, st.cache ≠ [] →
      ABSClient.find_match env st title author =
        (st.cache.find? (matchesEntry title author), st)) ∧
    ABSClient.find_match absEnvIdle (AbsState.mk [hobbitNovel]) "The Hobbit" "Tolkien" =
      (some hobbitNovel, AbsState.mk [hobbitNovel]) ∧
    ABSClient.find_match absEnvIdle (AbsState.mk [hobbitOther]) "The Hobbit" "Tolkien" =
      (none, AbsState.mk [hobbitOther]) := by
  refine ⟨?_, by decide, by decide⟩
  intro env st t a hne
  unfold ABSClient.find_match
  have hie : st.cache.isEmpty = false := by
    cases hcc : st.cache with
    | nil => exact absurd hcc hne
    | cons x xs => simp
  simp only [hie, Bool.false_eq_true, if_false]
  rw [findMatchLoop_eq]
  rfl

theorem claim_c8_witness :
    ([hobbitNovel] ≠ ([] : List AbsEntry)) ∧
    ABSClient.find_match absEnvIdle (AbsState.mk [hobbitNovel]) "The Hobbit" "Tolkien" =
      ((AbsState.mk [hobbitNovel]).cache.find? (matchesEntry "The Hobbit" "Tolkien"),
        AbsState.mk [hobbitNovel]) :=
  ⟨by decide,
    claim_c8_find_match.1 absEnvIdle (AbsState.mk [hobbitNovel]) "The Hobbit" "Tolkien"
      (by decide)⟩

theorem natContains_iff (l : List Nat) (a : Nat) : l.contains a = true ↔ a ∈ l := by
  simp [List.contains]

theorem retryFinish_code (db : RequestStore) (fl : List Nat) (u : Request) (rid : Nat) :
    (retryFinish db fl u rid).code = 200 := by
  unfold retryFinish
  by_cases h : (u.content_type == "audiobook") = true
  · simp [h]
  · have h' : (u.content_type == "audiobook") = false := by simpa using h
    simp [h']

theorem retryFinish_db (db : RequestStore) (fl : List Nat) (u : Request) (rid : Nat) :
    (retryFinish db fl u rid).db = db := by
  unfold retryFinish
  by_cases h : (u.content_type == "audiobook") = true
  · simp [h]
  · have h' : (u.content_type == "audiobook") = false := by simpa using h
    simp [h']

theorem retryFinish_spawned (db : RequestStore) (fl : List Nat) (u : Request) (rid : Nat)
    (h : u.content_type = "ebook") (hnm : rid ∉ fl) :
    (retryFinish db fl u rid).spawned = true := by
  unfold retryFinish
  have hb : (u.content_type == "audiobook") = false := by
    rw [h]
    rfl
  simp only [hb, Bool.false_eq_true, if_false]
  unfold acquire_download_slot
  have hcf : fl.contains rid = false := by
    cases hcc : fl.contains rid
    · rfl
    · exact absurd ((natContains_iff fl rid).mp hcc) hnm
  simp [hcf, hnm]

/-- Normal form of the retry route in the allowed case: the status update to
`approved` always happens; the metadata search runs exactly when provider or
provider_id is missing, and backfills from the first result on a hit. -/
theorem retry_route_eval (env : RetryEnv) (db : RequestStore) (flight : List Nat)
    (now adminId rid : Nat) (req : Request)
    (hget : db.getRequest rid = some req) (hallow : retryAllowed req.status = true) :
    retry_request_route env db flight now adminId rid =
      if !(truthy req.provider) || !(truthy req.provider_id) then
        if env.providerAvailable then
          match env.searchOutcome with
          | Except.ok (best :: _) =>
            retryFinish
              ((((db.updateRequestStatus now rid "approved" none (some adminId)
                  none).1).updateRequestMetadata now rid (some env.providerName)
                  (some best.provider_id)).1)
              flight
              (applyMetadataUpdate now (some env.providerName) (some best.provider_id)
                (applyStatusUpdate now "approved" none (some adminId) none req))
              rid
          | Except.ok [] =>
            retryFinish ((db.updateRequestStatus now rid "approved" none (some adminId) none).1)
              flight (applyStatusUpdate now "approved" none (some adminId) none req) rid
          | Except.error _ =>
            retryFinish ((db.updateRequestStatus now rid "approved" none (some adminId) none).1)
              flight (applyStatusUpdate now "approved" none (some adminId) none req) rid
        else
          retryFinish ((db.updateRequestStatus now rid "approved" none (some adminId) none).1)
            flight (applyStatusUpdate now "approved" none (some adminId) none req) rid
      else
        retryFinish ((db.updateRequestStatus now rid "approved" none (some adminId) none).1)
          flight (applyStatusUpdate now "approved" none (some adminId) none req) rid := by
  have hv : VALID_STATUSES.contains "approved" = true := rfl
  have hdb1 : ((db.updateRequestStatus now rid "approved" none (some adminId) none).1).getRequest
      rid = some (applyStatusUpdate now "approved" none (some adminId) none req) := by
    rw [getRequest_updateStatus db now rid "approved" none (some adminId) none hv, hget]
    rfl
  have hp1 : (applyStatusUpdate now "approved" none (some adminId) none req).provider =
      req.provider := rfl
  have hp2 : (applyStatusUpdate now "approved" none (some adminId) none req).provider_id =
      req.provider_id := rfl
  unfold retry_request_route
  rw [hget]
  simp only [hallow, Bool.not_true, Bool.false_eq_true, if_false, hdb1, hp1, hp2]
  by_cases hm : (!(truthy req.provider) || !(truthy req.provider_id)) = true
  · rw [if_pos hm, if_pos hm]
    by_cases hav : env.providerAvailable = true
    · rw [if_pos hav, if_pos hav]
      cases hso : env.searchOutcome with
      | error e => rfl
      | ok results =>
        cases results with
        | nil => rfl
        | cons best rest =>
          have hdb2 : ((((db.updateRequestStatus now rid "approved" none (some adminId)
              none).1).updateRequestMetadata now rid (some env.providerName)
              (some best.provider_id)).1).getRequest rid =
              some (applyMetadataUpdate now (some env.providerName) (some best.provider_id)
                (applyStatusUpdate now "approved" none (some adminId) none req)) := by
            rw [getRequest_updateMetadata, hdb1]
            rfl
          simp only [hdb2]
    · have hav' : env.providerAvailable = false := by simpa using hav
      rw [if_neg (by simp [hav']), if_neg (by simp [hav'])]
  · have hm' : (!(truthy req.provider) || !(truthy req.provider_id)) = false := by simpa using hm
    rw [if_neg (by simp [hm']), if_neg (by simp [hm'])]

/-- C6: `POST /api/requests/{id}/retry` succeeds only from
`{failed, cancelled, denied, downloading, approved}` (otherwise 400 with no
mutation); on success the status is set to `approved` with the acting admin
recorded; when provider or provider_id is missing a best-effort metadata
search runs and, on a hit, backfills `provider` (the configured provider
name) and `provider_id` (from the first search result); when the search
yields nothing (no provider, empty results, or a raised exception) the
request still ends at `approved` with no backfill; and an ebook request
still attempts orchestration (a download thread is spawned whenever the
slot is free). -/
theorem claim_c6_retry_route (env : RetryEnv) (db : RequestStore) (flight : List Nat)
    (now adminId rid : Nat) (req : Request) (hget : db.getRequest rid = some req) :
    (retryAllowed req.status = false →
      retry_request_route env db flight now adminId rid = ⟨400, db, flight, false⟩) ∧
    (retryAllowed req.status = true →
      (retry_request_route env db flight now adminId rid).code = 200 ∧
      ∃ r', (retry_request_route env db flight now adminId rid).db.getRequest rid = some r' ∧
        r'.status = "approved" ∧ r'.approved_by = some adminId) ∧
    (retryAllowed req.status = true →
      (truthy req.provider = false ∨ truthy req.provider_id = false) →
      env.providerAvailable = true →
      ∀ best rest, env.searchOutcome = Except.ok (best :: rest) →
      ∃ r', (retry_request_route env db flight now adminId rid).db.getRequest rid = some r' ∧
        r'.status = "approved" ∧ r'.provider = some env.providerName ∧
        r'.provider_id = some best.provider_id) ∧
    (retryAllowed req.status = true →
      (truthy req.provider = false ∨ truthy req.provider_id = false) →
      (env.providerAvailable = false ∨ env.searchOutcome = Except.ok [] ∨
        ∃ e, env.searchOutcome = Except.error e) →
      ∃ r', (retry_request_route env db flight now adminId rid).db.getRequest rid = some r' ∧
        r'.status = "approved" ∧ r'.provider = req.provider ∧
        r'.provider_id = req.provider_id) ∧
    (retryAllowed req.status = true → req.content_type = "ebook" → rid ∉ flight →
      (retry_request_route env db flight now adminId rid).spawned = true) := by
  have hv : VALID_STATUSES.contains "approved" = true := rfl
  have hdb1 : ((db.updateRequestStatus now rid "approved" none (some adminId) none).1).getRequest
      rid = some (applyStatusUpdate now "approved" none (some adminId) none req) := by
    rw [getRequest_updateStatus db now rid "approved" none (some adminId) none hv, hget]
    rfl
  have hdb2 : ∀ best : MetaResult,
      ((((db.updateRequestStatus now rid "approved" none (some adminId)
          none).1).updateRequestMetadata now rid (some env.providerName)
          (some best.provider_id)).1).getRequest rid =
        some (applyMetadataUpdate now (some env.providerName) (some best.provider_id)
          (applyStatusUpdate now "approved" none (some adminId) none req)) := by
    intro best
    rw [getRequest_updateMetadata, hdb1]
    rfl
  refine ⟨?_, ?_, ?_, ?_, ?_⟩
  · intro hna
    unfold retry_request_route
    rw [hget]
    simp [hna]
  · intro hallow
    rw [retry_route_eval env db flight now adminId rid req hget hallow]
    by_cases hm : (!(truthy req.provider) || !(truthy req.provider_id)) = true
    · rw [if_pos hm]
      by_cases hav : env.providerAvailable = true
      · rw [if_pos hav]
        cases hso : env.searchOutcome with
        | error e =>
          exact ⟨retryFinish_code _ _ _ _,
            applyStatusUpdate now "approved" none (some adminId) none req,
            by rw [retryFinish_db]; exact hdb1, rfl, rfl⟩
        | ok results =>
          cases results with
          | nil =>
            exact ⟨retryFinish_code _ _ _ _,
              applyStatusUpdate now "approved" none (some adminId) none req,
              by rw [retryFinish_db]; exact hdb1, rfl, rfl⟩
          | cons best rest =>
            exact ⟨retryFinish_code _ _ _ _,
              applyMetadataUpdate now (some env.providerName) (some best.provider_id)
                (applyStatusUpdate now "approved" none (some adminId) none req),
              by rw [retryFinish_db]; exact hdb2 best, rfl, rfl⟩
      · rw [if_neg (by simpa using hav)]
        exact ⟨retryFinish_code _ _ _ _,
          applyStatusUpdate now "approved" none (some adminId) none req,
          by rw [retryFinish_db]; exact hdb1, rfl, rfl⟩
    · rw [if_neg (by simpa using hm)]
      exact ⟨retryFinish_code _ _ _ _,
        applyStatusUpdate now "approved" none (some adminId) none req,
        by rw [retryFinish_db]; exact hdb1, rfl, rfl⟩
  · intro hallow hmiss hav best rest hso
    have hm : (!(truthy req.provider) || !(truthy req.provider_id)) = true := by
      rcases hmiss with h | h <;> simp [h]
    rw [retry_route_eval env db flight now adminId rid req hget hallow, if_pos hm, if_pos hav,
      hso]
    exact ⟨applyMetadataUpdate now (some env.providerName) (some best.provider_id)
        (applyStatusUpdate now "approved" none (some adminId) none req),
      by rw [retryFinish_db]; exact hdb2 best, rfl, rfl, rfl⟩
  · intro hallow hmiss hcase
    have hm : (!(truthy req.provider) || !(truthy req.provider_id)) = true := by
      rcases hmiss with h | h <;> simp [h]
    rw [retry_route_eval env db flight now adminId rid req hget hallow, if_pos hm]
    rcases hcase with hav | hso | ⟨e, hso⟩
    · rw [if_neg (by simp [hav])]
      exact ⟨applyStatusUpdate now "approved" none (some adminId) none req,
        by rw [retryFinish_db]; exact hdb1, rfl, rfl, rfl⟩
    · by_cases hav : env.providerAvailable = true
      · rw [if_pos hav, hso]
        exact ⟨applyStatusUpdate now "approved" none (some adminId) none req,
          by rw [retryFinish_db]; exact hdb1, rfl, rfl, rfl⟩
      · rw [if_neg (by simpa using hav)]
        exact ⟨applyStatusUpdate now "approved" none (some adminId) none req,
          by rw [retryFinish_db]; exact hdb1, rfl, rfl, rfl⟩
    · by_cases hav : env.providerAvailable = true
      · rw [if_pos hav, hso]
        exact ⟨applyStatusUpdate now "approved" none (some adminId) none req,
          by rw [retryFinish_db]; exact hdb1, rfl, rfl, rfl⟩
      · rw [if_neg (by simpa using hav)]
        exact ⟨applyStatusUpdate now "approved" none (some adminId) none req,
          by rw [retryFinish_db]; exact hdb1, rfl, rfl, rfl⟩
  · intro hallow hct hnm
    rw [retry_route_eval env db flight now adminId rid req hget hallow]
    by_cases hm : (!(truthy req.provider) || !(truthy req.provider_id)) = true
    · rw [if_pos hm]
      by_cases hav : env.providerAvailable = true
      · rw [if_pos hav]
        cases hso : env.searchOutcome with
        | error e => exact retryFinish_spawned _ _ _ _ hct hnm
        | ok results =>
          cases results with
          | nil => exact retryFinish_spawned _ _ _ _ hct hnm
          | cons best rest => exact retryFinish_spawned _ _ _ _ hct hnm
      · rw [if_neg (by simpa using hav)]
        exact retryFinish_spawned _ _ _ _ hct hnm
    · rw [if_neg (by simpa using hm)]
      exact retryFinish_spawned _ _ _ _ hct hnm

theorem claim_c6_witness :
    c6db.getRequest 1 = some c6req ∧ retryAllowed c6req.status = true ∧
    truthy c6req.provider = false ∧ c6env.providerAvailable = true ∧
    c6env.searchOutcome = Except.ok [MetaResult.mk "OL99"] ∧
    (∃ r', (retry_request_route c6env c6db [] 9 2 1).db.getRequest 1 = some r' ∧
      r'.status = "approved" ∧ r'.provider = some "openlibrary" ∧
      r'.provider_id = some "OL99") ∧
    (retry_request_route c6env c6db [] 9 2 1).spawned = true :=
  ⟨by decide, by decide, by decide, by decide, rfl,
    (claim_c6_retry_route c6env c6db [] 9 2 1 c6req (by decide)).2.2.1 (by decide)
      (Or.inl (by decide)) (by decide) (MetaResult.mk "OL99") [] rfl,
    (claim_c6_retry_route c6env c6db [] 9 2 1 c6req (by decide)).2.2.2.2 (by decide)
      (by decide) (by decide)⟩

/-- Looking up a freshly appended row with the AUTOINCREMENT id finds it. -/
theorem getRequest_append_fresh (db : RequestStore) (row : Request)
    (hid : row.id = db.nextId) (hu : db.users.contains row.user_id = true) :
    RequestStore.getRequest { db with requests := db.requests ++ [row] } db.nextId = some row := by
  unfold RequestStore.getRequest
  have hfind : db.requests.find? (fun r => r.id == db.nextId) = none := by
    rw [List.find?_eq_none]
    intro x hx
    have hlt := id_lt_nextId db x hx
    simp only [Bool.not_eq_true]
    cases hbeq : (x.id == db.nextId)
    · rfl
    · exact absurd (by simpa using hbeq) (Nat.ne_of_lt hlt)
  show (match (db.requests ++ [row]).find? (fun r => r.id == db.nextId) with
    | none => none
    | some r => if db.users.contains r.user_id then some r else none) = some row
  rw [find?_append_left_none _ _ _ hfind]
  have hrow : (row.id == db.nextId) = true := by rw [hid]; exact beq_self_eq_true _
  simp [List.find?, hrow, hu, (natContains_iff _ _).mp hu]

/-- The creation route after its synchronous validations: the duplicate scan
decides between 409 and the insert. -/
theorem create_route_eval (db : RequestStore) (now uid : Nat) (body : CreateBody)
    (hu0 : uid ≠ 0) (htitle : stripS (body.title.getD "") ≠ "")
    (hct : VALID_CONTENT_TYPES.contains (body.content_type.getD "ebook") = true) :
    create_request_route db now (some uid) body =
      (if (db.listRequests (some uid) none 200 0 false).any
          (dupHit body.provider body.provider_id (body.content_type.getD "ebook")
            (stripS (body.title.getD ""))) then (409, db)
      else
        match db.createRequest now uid (stripS (body.title.getD ""))
            (body.content_type.getD "ebook") (stripOpt body.author) (stripOpt body.year)
            body.cover_url body.description body.isbn_10 body.isbn_13 body.provider
            body.provider_id body.series_name body.series_position with
        | (db2, Except.ok (some _)) => (201, db2)
        | (db2, Except.ok none) => (500, db2)
        | (db2, Except.error _) => (400, db2)) := by
  have hu : (uid == 0) = false := by simpa using hu0
  have ht : (stripS (body.title.getD "") == "") = false := by simpa using htitle
  unfold create_request_route
  simp only [hu, Bool.false_eq_true, if_false, ht, hct, Bool.not_true]

/-- The duplicate scan over the user's listing hits iff some row of the user
satisfies the per-row duplicate test (valid whenever the user holds at most
200 rows, the scan's page size). -/
theorem dupScan_iff (db : RequestStore) (uid : Nat) (pred : Request → Bool)
    (hmem : db.users.contains uid = true)
    (hlen : (db.requests.filter (fun r => r.user_id == uid)).length ≤ 200) :
    ((db.listRequests (some uid) none 200 0 false).any pred = true ↔
      ∃ ex ∈ db.requests, ex.user_id = uid ∧ pred ex = true) := by
  have hmono : ∀ r, listPred db (some uid) none false r = true → (r.user_id == uid) = true := by
    intro r hr
    unfold listPred at hr
    simp only [Bool.and_eq_true] at hr
    exact hr.1.2
  have hro : db.listRequests (some uid) none 200 0 false =
      sortByCreatedDesc (db.requests.filter (listPred db (some uid) none false)) := by
    simp only [RequestStore.listRequests]
    rw [if_neg (by decide : ¬((200 : Int) < 0))]
    rw [List.drop_zero]
    apply List.take_of_length_le
    rw [length_sortByCreatedDesc]
    exact le_trans (length_filter_mono _ _ _ hmono) hlen
  rw [hro, List.any_eq_true]
  constructor
  · rintro ⟨x, hx, hpx⟩
    rw [mem_sortByCreatedDesc] at hx
    rcases List.mem_filter.mp hx with ⟨hxm, hxp⟩
    exact ⟨x, hxm, by simpa using hmono x hxp, hpx⟩
  · rintro ⟨x, hxm, hxu, hpx⟩
    refine ⟨x, ?_, hpx⟩
    rw [mem_sortByCreatedDesc, List.mem_filter]
    refine ⟨hxm, ?_⟩
    unfold listPred
    have h1 : (x.user_id == uid) = true := by simpa using hxu
    have h2 : db.users.contains x.user_id = true := by
      rw [show x.user_id = uid from hxu]
      exact hmem
    simp [h1, h2, (natContains_iff _ _).mp h2]

/-- C5 counterexample: the claim says a second active ebook request with the
same case-insensitive title and content type always yields 409 (and that the
title rule applies whenever provider identifiers are absent on either side).
Here user 1 holds an active id-less ebook request titled "Dune" and submits
the same title again, this time carrying provider identifiers: the route
takes the provider/provider_id branch (keyed only on the NEW body), the
identifiers do not match the id-less row, and the request is created with
201 instead of being rejected with 409. -/
theorem claim_c5_counterexample :
    isActiveStatus dupEx.status = true ∧ dupEx.user_id = 1 ∧ dupEx.content_type = "ebook" ∧
    dupEx.provider = none ∧ dupEx.provider_id = none ∧
    dupDb.requests = [dupEx] ∧ dupDb.users = [1] ∧
    stripS (dupBody.title.getD "") = dupEx.title ∧ dupBody.content_type.getD "ebook" = "ebook" ∧
    truthy dupBody.provider = true ∧ truthy dupBody.provider_id = true ∧
    (create_request_route dupDb 5 (some 1) dupBody).1 = 201 := by decide

/-- C5 (amended): a creation attempt is rejected with 409 and nothing is
inserted iff the same user already has an active request (status in
{pending, approved, downloading}) of the same content_type matching the new
one by (a) identical provider and provider_id when the NEW submission
supplies both identifiers, or (b) case-insensitive identical title when the
NEW submission lacks provider or provider_id — the existing row's
identifiers play no role in selecting the rule; in particular a second
active ebook request with the same case-insensitive title submitted WITHOUT
provider identifiers always yields 409. (Stated for users holding at most
200 requests, the scan's page size.) -/
theorem claim_c5_duplicate_check_amended
    (db : RequestStore) (now : Nat) (uid : Nat) (body : CreateBody)
    (hu0 : uid ≠ 0)
    (hmem : db.users.contains uid = true)
    (htitle : stripS (body.title.getD "") ≠ "")
    (hct : VALID_CONTENT_TYPES.contains (body.content_type.getD "ebook") = true)
    (hlen : (db.requests.filter (fun r => r.user_id == uid)).length ≤ 200) :
    ((create_request_route db now (some uid) body).1 = 409 ∧
        (create_request_route db now (some uid) body).2 = db ↔
      ∃ ex ∈ db.requests, ex.user_id = uid ∧
        dupHit body.provider body.provider_id (body.content_type.getD "ebook")
          (stripS (body.title.getD "")) ex = true) ∧
    (¬(∃ ex ∈ db.requests, ex.user_id = uid ∧
        dupHit body.provider body.provider_id (body.content_type.getD "ebook")
          (stripS (body.title.getD "")) ex = true) →
      (create_request_route db now (some uid) body).1 = 201) := by
  have hscan := dupScan_iff db uid
    (dupHit body.provider body.provider_id (body.content_type.getD "ebook")
      (stripS (body.title.getD ""))) hmem hlen
  have heval := create_route_eval db now uid body hu0 htitle hct
  by_cases hany : (db.listRequests (some uid) none 200 0 false).any
      (dupHit body.provider body.provider_id (body.content_type.getD "ebook")
        (stripS (body.title.getD ""))) = true
  · rw [heval, if_pos hany]
    constructor
    · constructor
      · intro _
        exact hscan.mp hany
      · intro _
        exact ⟨rfl, rfl⟩
    · intro hex
      exact absurd (hscan.mp hany) hex
  · have hany' : (db.listRequests (some uid) none 200 0 false).any
        (dupHit body.provider body.provider_id (body.content_type.getD "ebook")
          (stripS (body.title.getD ""))) = false := by simpa using hany
    have h201 : (create_request_route db now (some uid) body).1 = 201 := by
      rw [heval, if_neg (by simp [hany'])]
      unfold RequestStore.createRequest
      simp only [hct, if_true]
      rw [getRequest_append_fresh db _ rfl hmem]
    rw [heval, if_neg (by simp [hany'])] at h201 ⊢
    constructor
    · constructor
      · intro hcontr
        exact absurd (hcontr.1.symm.trans h201) (by decide)
      · intro hex
        exact absurd (hscan.mpr hex) (by simp [hany'])
    · intro _
      exact h201

theorem claim_c5_witness :
    (1 : Nat) ≠ 0 ∧ dupDb.users.contains 1 = true ∧
    stripS (c5body.title.getD "") ≠ "" ∧
    VALID_CONTENT_TYPES.contains (c5body.content_type.getD "ebook") = true ∧
    (dupDb.requests.filter (fun r => r.user_id == 1)).length ≤ 200 ∧
    (∃ ex ∈ dupDb.requests, ex.user_id = 1 ∧
      dupHit c5body.provider c5body.provider_id (c5body.content_type.getD "ebook")
        (stripS (c5body.title.getD "")) ex = true) ∧
    (create_request_route dupDb 5 (some 1) c5body).1 = 409 ∧
    (create_request_route dupDb 5 (some 1) c5body).2 = dupDb :=
  ⟨by decide, by decide, by decide, by decide, by decide,
    ⟨dupEx, by decide, by decide, by decide⟩,
    ((claim_c5_duplicate_check_amended dupDb 5 1 c5body (by decide) (by decide) (by decide)
          (by decide) (by decide)).1.mpr
        ⟨dupEx, by decide, by decide, by decide⟩).1,
    ((claim_c5_duplicate_check_amended dupDb 5 1 c5body (by decide) (by decide) (by decide)
          (by decide) (by decide)).1.mpr
        ⟨dupEx, by decide, by decide, by decide⟩).2⟩
